import Mathlib

/-!
Shallow embedding of src/bb_bank_historic_rata_data_fetch.py.

A MonthlyTable (pandas DataFrame) is modelled as a list of rows, each row a
list of integer cells; the derived month_year timestamp column is modelled as
an integer date code appended to every row.  The local cache directory is
modelled as an association list from file path to stored table; the HTTP
collaborator, requests.post composed with the pd.read_html extraction, is
modelled as a function from (month, year) to an HttpResponse carrying the
status code and the list of tables extractable from the body.  Python
exceptions are modelled with Except over the PyError type; functions that can
raise return Except values and the ghost Nat in load_or_fetch_data counts how
many remote fetches the call performed.
-/

/-- A row of a tabular dataset: a list of integer cells. -/
abbrev Row : Type := List Int

/-- A MonthlyTable: an ordered sequence of rows (pandas DataFrame). -/
abbrev Table : Type := List Row

/-- Decidable equality for Except values, so that concrete runs of the
embedded functions can be checked by evaluation. -/
instance {ε α : Type} [DecidableEq ε] [DecidableEq α] : DecidableEq (Except ε α) :=
  fun x y =>
    match x, y with
    | Except.error a, Except.error b =>
      if h : a = b then Decidable.isTrue (by rw [h]) else Decidable.isFalse (by simp [h])
    | Except.error _, Except.ok _ => Decidable.isFalse (by simp)
    | Except.ok _, Except.error _ => Decidable.isFalse (by simp)
    | Except.ok a, Except.ok b =>
      if h : a = b then Decidable.isTrue (by rw [h]) else Decidable.isFalse (by simp [h])

/-- The Python exceptions the embedded code can raise.
valueErrorNoTables is the ValueError pd.read_html raises when the body holds
no table (line 42); attributeErrorNoneShape is the AttributeError raised at
line 128 when data_table.shape is accessed on None; noDataCollected is the
ValueError pd.concat raises at line 142 when all_tables is empty, named after
the NoDataCollectedError of the design taxonomy. -/
inductive PyError : Type where
  | valueErrorNoTables : PyError
  | attributeErrorNoneShape : Nat → Int → PyError
  | noDataCollected : PyError
deriving DecidableEq, Repr

/-- The remote response, line 36: the HTTP status code together with the
tables that pd.read_html can extract from the response body. -/
structure HttpResponse : Type where
  status_code : Nat
  tables : List Table
deriving DecidableEq, Repr

/-- calendar.isleap, used by calendar.monthrange at line 29. -/
def isleap (year : Int) : Bool :=
  year % 4 == 0 && (year % 100 != 0 || year % 400 == 0)

/-- calendar.monthrange(year, month)[1], line 29: the last day of the month. -/
def monthrange_last (year : Int) (month : Nat) : Nat :=
  if month = 2 then (if isleap year then 29 else 28)
  else if month = 4 || month = 6 || month = 9 || month = 11 then 30
  else 31

/-- calendar.month_name[month], lines 26 and 136 (index 0 is the empty
string, as in Python). -/
def month_name : Nat → String
  | 1 => "January"
  | 2 => "February"
  | 3 => "March"
  | 4 => "April"
  | 5 => "May"
  | 6 => "June"
  | 7 => "July"
  | 8 => "August"
  | 9 => "September"
  | 10 => "October"
  | 11 => "November"
  | 12 => "December"
  | _ => ""

/-- The month_year timestamp of line 44, pd.to_datetime of
year-month-last_day, modelled as the integer date code y*10000 + m*100 + d. -/
def date_code (year : Int) (month : Nat) (day : Nat) : Int :=
  year * 10000 + (month : Int) * 100 + (day : Int)

/-- Line 45: data_table[("month_year", "month_year")] = date_column, the
column assignment that gives every row of the table the derived month_year
value (a zero-row table stays zero-row). -/
def add_month_year (month : Nat) (year : Int) (t : Table) : Table :=
  t.map (fun row => row ++ [date_code year month (monthrange_last year month)])

/-- get_data_table, lines 13 to 49.  The post collaborator stands for
requests.post at line 36 together with the table extraction of the body.
On status 200 the first extracted table gets the month_year column and is
returned (pd.read_html raises ValueError when no table is present); on any
other status the function returns None (line 49). -/
def get_data_table (post : Nat → Int → HttpResponse) (month : Nat) (year : Int) :
    Except PyError (Option Table) :=
  let response := post month year
  if response.status_code = 200 then
    match response.tables with
    | [] => Except.error PyError.valueErrorNoTables
    | data_table :: _ => Except.ok (some (add_month_year month year data_table))
  else
    Except.ok none

/-- DATA_FOLDER, line 11. -/
def DATA_FOLDER : String := "bd_bank_historical_interest_rate_data"

/-- os.path.join(DATA_FOLDER, f-string month_year.parquet), line 62. -/
def cache_path (month : Nat) (year : Int) : String :=
  DATA_FOLDER ++ "/" ++ toString month ++ "_" ++ toString year ++ ".parquet"

/-- The cache directory, modelled as an association list from file path to
stored table; a write prepends, and a read finds the most recent write. -/
structure FileSystem : Type where
  files : List (String × Table)
deriving DecidableEq, Repr

/-- os.path.exists, line 63. -/
def FileSystem.pathExists (fs : FileSystem) (path : String) : Bool :=
  fs.files.any (fun e => e.1 == path)

/-- pd.read_parquet, line 65 (returns the stored table when present). -/
def FileSystem.read (fs : FileSystem) (path : String) : Option Table :=
  (fs.files.find? (fun e => e.1 == path)).map (fun e => e.2)

/-- DataFrame.to_parquet, line 69. -/
def FileSystem.write (fs : FileSystem) (path : String) (t : Table) : FileSystem :=
  ⟨(path, t) :: fs.files⟩

/-- load_or_fetch_data, lines 51 to 70.  Returns the table (or None), the
file system after the call, and a ghost count of remote fetches performed
(0 on cache hit, 1 on cache miss).  On a miss the successfully fetched table
is persisted before returning (line 69); a None fetch result is returned
without persisting anything. -/
def load_or_fetch_data (post : Nat → Int → HttpResponse) (fs : FileSystem)
    (month : Nat) (year : Int) :
    Except PyError (Option Table × FileSystem × Nat) :=
  let file_path := cache_path month year
  if fs.pathExists file_path then
    Except.ok (fs.read file_path, fs, 0)
  else
    match get_data_table post month year with
    | Except.error e => Except.error e
    | Except.ok data_table =>
      match data_table with
      | some t => Except.ok (some t, fs.write file_path t, 1)
      | none => Except.ok (none, fs, 1)

/-- create_fetch_list, lines 72 to 109, with the implicit current UTC month
and year (lines 90 and 91) passed explicitly.  Raises ValueError when
end_year is smaller than start_year (line 87); otherwise builds the
ascending list of (month, year) pairs, limiting a year that is not strictly
before the current year to months up to the current month (line 99), and
finally filters out every pair strictly after the current month and year
(line 105). -/
def create_fetch_list (current_month : Nat) (current_year : Int)
    (start_year end_year : Int) : Except String (List (Nat × Int)) :=
  if end_year < start_year then
    Except.error "End year cannot be smaller than start year."
  else
    let years := (List.range (end_year - start_year + 1).toNat).map
      (fun i => start_year + (i : Int))
    let fetch_list := years.flatMap (fun year =>
      let max_month : Nat := if year < current_year then 12 else current_month
      (List.range max_month).map (fun i => (i + 1, year)))
    Except.ok (fetch_list.filter (fun p =>
      decide (p.2 < current_year) ||
        (decide (p.2 = current_year) && decide (p.1 ≤ current_month))))

/-- The mutable loop state of get_data_for_months, lines 121 to 123:
all_tables, consecutive_zero_rows and consecutive_zero_months.  The aborted
field is ghost instrumentation recording whether the break of line 140
fired; it changes no observable behaviour. -/
structure AggState : Type where
  all_tables : List Table
  consecutive_zero_rows : Nat
  consecutive_zero_months : List String
  aborted : Bool
deriving DecidableEq, Repr

/-- The initial loop state of get_data_for_months. -/
def initAggState : AggState := ⟨[], 0, [], false⟩

/-- The label appended at line 136, the f-string of month name and year. -/
def month_label (month : Nat) (year : Int) : String :=
  month_name month ++ ", " ++ toString year

/-- The loop of get_data_for_months, lines 126 to 141, over the already
reversed fetch list, threading the file system through load_or_fetch_data.
Line 128 formats data_table.shape before the None check of line 129, so a
None result raises AttributeError here.  A non-empty table is appended and
the counters are reset (lines 131 to 133); a zero-row table increments the
counter and appends its label (lines 135 and 136), and when the counter
reaches 5 the loop breaks at once (line 140), the remaining entries
unprocessed. -/
def aggLoop (post : Nat → Int → HttpResponse) :
    List (Nat × Int) → FileSystem → AggState →
    Except PyError (AggState × FileSystem)
  | [], fs, st => Except.ok (st, fs)
  | (month, year) :: rest, fs, st =>
    match load_or_fetch_data post fs month year with
    | Except.error e => Except.error e
    | Except.ok (data_table, fs1, _) =>
      match data_table with
      | none => Except.error (PyError.attributeErrorNoneShape month year)
      | some t =>
        if t.length > 0 then
          aggLoop post rest fs1
            ⟨st.all_tables ++ [t], 0, [], st.aborted⟩
        else
          let c := st.consecutive_zero_rows + 1
          let labels := st.consecutive_zero_months ++ [month_label month year]
          if c = 5 then
            Except.ok (⟨st.all_tables, c, labels, true⟩, fs1)
          else
            aggLoop post rest fs1 ⟨st.all_tables, c, labels, st.aborted⟩

/-- get_data_for_months, lines 111 to 142: run the loop over the reversed
fetch list, then pd.concat the collected tables ignoring the index (row
concatenation in collection order); pd.concat raises ValueError when
all_tables is empty (the NoDataCollectedError of the design). -/
def get_data_for_months (post : Nat → Int → HttpResponse)
    (fetch_list : List (Nat × Int)) (fs : FileSystem) :
    Except PyError (Table × FileSystem) :=
  match aggLoop post fetch_list.reverse fs initAggState with
  | Except.error e => Except.error e
  | Except.ok (st, fs1) =>
    if st.all_tables.isEmpty then Except.error PyError.noDataCollected
    else Except.ok (st.all_tables.flatten, fs1)

/-- A UTC instant, for datetime.now(timezone.utc) at line 173. -/
structure UTCTime : Type where
  year : Nat
  month : Nat
  day : Nat
  hour : Nat
  minute : Nat
  second : Nat
deriving DecidableEq, Repr

/-- Zero padding to two digits, for the %m %d %H %M %S directives. -/
def pad2 (n : Nat) : String :=
  if n < 10 then "0" ++ toString n else toString n

/-- Zero padding to four digits, for the %Y directive. -/
def pad4 (n : Nat) : String :=
  if n < 10 then "000" ++ toString n
  else if n < 100 then "00" ++ toString n
  else if n < 1000 then "0" ++ toString n
  else toString n

/-- strftime of line 173 applied to the current UTC time, the underscore
separated year-month-day and hour-minute-second suffix ending in GMT. -/
def strftime_suffix (t : UTCTime) : String :=
  "_" ++ (pad4 t.year ++ "-" ++ pad2 t.month ++ "-" ++ pad2 t.day ++ "_" ++
    pad2 t.hour ++ "-" ++ pad2 t.minute ++ "-" ++ pad2 t.second ++ "_GMT")

/-- The fixed combined output name of line 171. -/
def file_name_combined : String := "historic_rate_data_bd_banks_combined.parquet"

/-- Lines 171 to 174: when a file with the fixed combined name already
exists, the output name becomes the stem of the fixed name (its split at
.parquet, line 174) followed by the timestamp suffix and the extension. -/
def combined_file_name (alreadyExists : Bool) (now : UTCTime) : String :=
  if alreadyExists then
    "historic_rate_data_bd_banks_combined" ++ strftime_suffix now ++ ".parquet"
  else file_name_combined

/-- The observable outcome of one run of main, lines 144 to 178. -/
inductive MainOutcome : Type where
  | invalidRange : String → MainOutcome
  | emptyPlan : MainOutcome
  | raised : PyError → MainOutcome
  | wrote : String → Table → MainOutcome
deriving DecidableEq, Repr

namespace Script

/-- main, lines 144 to 178, after argument parsing, with the implicit
current UTC date and the collaborators passed explicitly.  A ValueError
from create_fetch_list is caught and the run returns (lines 160 to 162);
an empty fetch list prints and returns (lines 164 to 166); a Python error
raised by get_data_for_months propagates uncaught; otherwise the combined
table is written under the name chosen at lines 171 to 174. -/
def main (current_month : Nat) (current_year : Int) (now : UTCTime)
    (post : Nat → Int → HttpResponse) (fs : FileSystem)
    (combinedExists : Bool) (start_year end_year : Int) : MainOutcome :=
  match create_fetch_list current_month current_year start_year end_year with
  | Except.error msg => MainOutcome.invalidRange msg
  | Except.ok fetch_list =>
    if fetch_list.isEmpty then MainOutcome.emptyPlan
    else
      match get_data_for_months post fetch_list fs with
      | Except.error e => MainOutcome.raised e
      | Except.ok (result_table, _) =>
        MainOutcome.wrote (combined_file_name combinedExists now) result_table

end Script

/-- A remote collaborator whose every response has status 404 and no body
tables: every fetch yields None. -/
def post404 : Nat → Int → HttpResponse := fun _ _ => ⟨404, []⟩

/-- A remote collaborator whose every response is a 200 carrying a single
zero-row table: every fetch yields an empty table. -/
def postAllEmpty : Nat → Int → HttpResponse := fun _ _ => ⟨200, [[]]⟩

/-- The remote collaborator of the concrete scenario of the design: month 1
of 2023 answers with a ten-row table, every other request with a zero-row
table. -/
def postScenario : Nat → Int → HttpResponse := fun month year =>
  if month = 1 && year == 2023 then ⟨200, [List.replicate 10 []]⟩
  else ⟨200, [[]]⟩

/-- C2: for every pair of years with end_year smaller than start_year,
create_fetch_list raises ValueError before building any plan, and main
reports the invalid range; the outcome is the same for every remote
collaborator and file system, so no fetch occurs. -/
theorem create_fetch_list_invalid_range (cm : Nat) (cy : Int) (now : UTCTime)
    (post : Nat → Int → HttpResponse) (fs : FileSystem) (ex : Bool)
    (s e : Int) (h : e < s) :
    create_fetch_list cm cy s e =
      Except.error "End year cannot be smaller than start year." ∧
    Script.main cm cy now post fs ex s e =
      MainOutcome.invalidRange "End year cannot be smaller than start year." := by
  have hplan : create_fetch_list cm cy s e =
      Except.error "End year cannot be smaller than start year." := by
    unfold create_fetch_list
    simp [h]
  refine ⟨hplan, ?_⟩
  unfold Script.main
  rw [hplan]

/-- Witness for C2 at the concrete range 2024 down to 2023. -/
theorem create_fetch_list_invalid_range_witness :
    (2023 : Int) < 2024 ∧
    Script.main 6 2024 ⟨2024, 6, 1, 0, 0, 0⟩ post404 ⟨[]⟩ false 2024 2023 =
      MainOutcome.invalidRange "End year cannot be smaller than start year." :=
  ⟨by decide,
    (create_fetch_list_invalid_range 6 2024 ⟨2024, 6, 1, 0, 0, 0⟩ post404 ⟨[]⟩
      false 2024 2023 (by decide)).2⟩

/-- C3: every entry of a plan produced by create_fetch_list is at or before
the current month and year: its year is strictly before the current year, or
it is the current year with month at most the current month. -/
theorem create_fetch_list_never_future (cm : Nat) (cy : Int) (s e : Int)
    (plan : List (Nat × Int)) (m : Nat) (y : Int)
    (hplan : create_fetch_list cm cy s e = Except.ok plan)
    (hmem : (m, y) ∈ plan) :
    y < cy ∨ (y = cy ∧ m ≤ cm) := by
  unfold create_fetch_list at hplan
  by_cases hlt : e < s
  · simp [hlt] at hplan
  · simp only [hlt, if_false] at hplan
    injection hplan with hplan
    subst hplan
    rcases List.mem_filter.mp hmem with ⟨-, hp⟩
    simpa using hp

/-- Witness for C3: in the plan for 2023 to 2024 with current month 6 of
2024, the entry for month 5 of 2024 is not in the future. -/
theorem create_fetch_list_never_future_witness :
    (2024 : Int) < 2024 ∨ ((2024 : Int) = 2024 ∧ (5 : Nat) ≤ 6) :=
  create_fetch_list_never_future 6 2024 2023 2024
    [(1, 2023), (2, 2023), (3, 2023), (4, 2023), (5, 2023), (6, 2023),
     (7, 2023), (8, 2023), (9, 2023), (10, 2023), (11, 2023), (12, 2023),
     (1, 2024), (2, 2024), (3, 2024), (4, 2024), (5, 2024), (6, 2024)]
    5 2024 (by decide) (by decide)

/-- C6: whenever the response for a month and year has an HTTP status other
than 200, get_data_table returns None without raising any exception. -/
theorem get_data_table_non200_is_none (post : Nat → Int → HttpResponse)
    (m : Nat) (y : Int) (h : (post m y).status_code ≠ 200) :
    get_data_table post m y = Except.ok none := by
  unfold get_data_table
  simp [h]

/-- Witness for C6 at a 404 response. -/
theorem get_data_table_non200_is_none_witness :
    (post404 1 2023).status_code ≠ 200 ∧
    get_data_table post404 1 2023 = Except.ok none :=
  ⟨by decide, get_data_table_non200_is_none post404 1 2023 (by decide)⟩

/-- C9: when the fixed combined output name already exists, the chosen name
is the stem followed by the UTC timestamp suffix embedding year-month-day
and hour-minute-second, and it differs from the fixed name for every
timestamp, so the prior file is not overwritten. -/
theorem combined_file_name_collision (now : UTCTime) :
    combined_file_name true now =
      "historic_rate_data_bd_banks_combined" ++ strftime_suffix now ++ ".parquet" ∧
    combined_file_name true now ≠ file_name_combined := by
  refine ⟨rfl, ?_⟩
  intro h
  rw [show combined_file_name true now =
      "historic_rate_data_bd_banks_combined" ++ strftime_suffix now ++ ".parquet"
    from rfl] at h
  have hlen := congrArg String.length h
  rw [String.length_append, String.length_append] at hlen
  unfold strftime_suffix at hlen
  rw [String.length_append] at hlen
  have h36 : ("historic_rate_data_bd_banks_combined" : String).length = 36 := rfl
  have h8 : (".parquet" : String).length = 8 := rfl
  have h1 : ("_" : String).length = 1 := rfl
  have h44 : file_name_combined.length = 44 := rfl
  omega

/-- C10: whenever load_or_fetch_data resolves a plan entry to None, the
aggregation loop raises the AttributeError of line 128, where
data_table.shape is formatted before the None check of line 129; the absent
handling branch and the consecutive absence counter are never reached,
whatever the loop state and the remaining entries. -/
theorem aggLoop_none_raises (post : Nat → Int → HttpResponse)
    (fs fs1 : FileSystem) (n : Nat) (m : Nat) (y : Int)
    (rest : List (Nat × Int)) (st : AggState)
    (hres : load_or_fetch_data post fs m y = Except.ok (none, fs1, n)) :
    aggLoop post ((m, y) :: rest) fs st =
      Except.error (PyError.attributeErrorNoneShape m y) := by
  unfold aggLoop
  rw [hres]

/-- Witness for C10: a single-entry plan whose fetch answers 404 resolves to
None and the loop raises. -/
theorem aggLoop_none_raises_witness :
    load_or_fetch_data post404 ⟨[]⟩ 1 2023 = Except.ok (none, ⟨[]⟩, 1) ∧
    aggLoop post404 [(1, 2023)] ⟨[]⟩ initAggState =
      Except.error (PyError.attributeErrorNoneShape 1 2023) :=
  ⟨by decide, aggLoop_none_raises post404 ⟨[]⟩ ⟨[]⟩ 1 1 2023 [] initAggState (by decide)⟩

/-- Counterexample to C1: in the single-entry plan whose only result is
Absent (a 404 response makes load_or_fetch_data yield None), the aggregation
raises the AttributeError of line 128 instead of incrementing the
consecutive absence counter; in particular the run does not end in the
NoDataCollectedError that counting the absence would have produced. -/
theorem absent_does_not_count_counterexample :
    get_data_for_months post404 [(1, 2023)] ⟨[]⟩ =
      Except.error (PyError.attributeErrorNoneShape 1 2023) ∧
    get_data_for_months post404 [(1, 2023)] ⟨[]⟩ ≠
      Except.error PyError.noDataCollected := by
  decide

/-- C1 amended: in the aggregation loop, a result that is a zero-row table
increments the consecutive absence counter and appends its label; when the
counter reaches 5 the loop stops immediately with the abortion recorded and
the remaining plan entries unprocessed (the right hand side of the stopping
equation does not mention the rest of the plan).  A result that is Absent
instead raises before the counter is touched. -/
theorem zero_row_counts_and_five_stops (post : Nat → Int → HttpResponse)
    (fs fs1 : FileSystem) (n : Nat) (m : Nat) (y : Int)
    (rest : List (Nat × Int)) (st : AggState)
    (hres : load_or_fetch_data post fs m y = Except.ok (some [], fs1, n)) :
    (st.consecutive_zero_rows + 1 ≠ 5 →
      aggLoop post ((m, y) :: rest) fs st =
        aggLoop post rest fs1
          ⟨st.all_tables, st.consecutive_zero_rows + 1,
            st.consecutive_zero_months ++ [month_label m y], st.aborted⟩) ∧
    (st.consecutive_zero_rows + 1 = 5 →
      aggLoop post ((m, y) :: rest) fs st =
        Except.ok (⟨st.all_tables, st.consecutive_zero_rows + 1,
          st.consecutive_zero_months ++ [month_label m y], true⟩, fs1)) := by
  constructor
  · intro h5
    have h4 : st.consecutive_zero_rows ≠ 4 := by omega
    conv_lhs => rw [aggLoop]
    rw [hres]
    simp [h4]
  · intro h5
    have h4 : st.consecutive_zero_rows = 4 := by omega
    conv_lhs => rw [aggLoop]
    rw [hres]
    simp [h4]

/-- Witness for the amended C1: with every response a zero-row table, the
first plan entry increments the counter from 0 to 1 and appends the label
for January 2023, and the loop goes on with the remaining entries. -/
theorem zero_row_counts_and_five_stops_witness :
    load_or_fetch_data postAllEmpty ⟨[]⟩ 1 2023 =
      Except.ok (some [],
        ⟨[("bd_bank_historical_interest_rate_data/1_2023.parquet", [])]⟩, 1) ∧
    aggLoop postAllEmpty [(1, 2023)] ⟨[]⟩ initAggState =
      aggLoop postAllEmpty []
        ⟨[("bd_bank_historical_interest_rate_data/1_2023.parquet", [])]⟩
        ⟨[], 1, [month_label 1 2023], false⟩ :=
  ⟨by decide,
    (zero_row_counts_and_five_stops postAllEmpty ⟨[]⟩
      ⟨[("bd_bank_historical_interest_rate_data/1_2023.parquet", [])]⟩ 1 1 2023 []
      initAggState (by decide)).1 (by decide)⟩

/-- C5: starting from a cache with no file for the month and year, and a
remote fetch that succeeds with some table, the first load_or_fetch_data
call performs exactly one remote fetch and persists the table under the
cache path before returning it; the persisted file holds that table; and a
second call on the resulting cache performs no remote fetch, is served from
the file, and returns the same table with the cache unchanged. -/
theorem load_or_fetch_data_idempotent (post : Nat → Int → HttpResponse)
    (fs : FileSystem) (m : Nat) (y : Int) (tbl : Table)
    (hmiss : fs.pathExists (cache_path m y) = false)
    (hfetch : get_data_table post m y = Except.ok (some tbl)) :
    load_or_fetch_data post fs m y =
      Except.ok (some tbl, fs.write (cache_path m y) tbl, 1) ∧
    (fs.write (cache_path m y) tbl).read (cache_path m y) = some tbl ∧
    load_or_fetch_data post (fs.write (cache_path m y) tbl) m y =
      Except.ok (some tbl, fs.write (cache_path m y) tbl, 0) := by
  have hexists2 :
      (fs.write (cache_path m y) tbl).pathExists (cache_path m y) = true := by
    simp [FileSystem.write, FileSystem.pathExists]
  have hread2 :
      (fs.write (cache_path m y) tbl).read (cache_path m y) = some tbl := by
    simp [FileSystem.write, FileSystem.read, List.find?]
  refine ⟨?_, hread2, ?_⟩
  · unfold load_or_fetch_data
    rw [hfetch]
    simp [hmiss]
  · unfold load_or_fetch_data
    simp [hexists2, hread2]

/-- Witness for C5 at a concrete empty cache and a 200 response carrying a
one-row table. -/
theorem load_or_fetch_data_idempotent_witness :
    FileSystem.pathExists ⟨[]⟩ (cache_path 1 2023) = false ∧
    get_data_table postScenario 1 2023 =
      Except.ok (some (List.replicate 10 [(20230131 : Int)])) ∧
    load_or_fetch_data postScenario ⟨[]⟩ 1 2023 =
      Except.ok (some (List.replicate 10 [(20230131 : Int)]),
        FileSystem.write ⟨[]⟩ (cache_path 1 2023) (List.replicate 10 [(20230131 : Int)]), 1) ∧
    load_or_fetch_data postScenario
        (FileSystem.write ⟨[]⟩ (cache_path 1 2023) (List.replicate 10 [(20230131 : Int)]))
        1 2023 =
      Except.ok (some (List.replicate 10 [(20230131 : Int)]),
        FileSystem.write ⟨[]⟩ (cache_path 1 2023) (List.replicate 10 [(20230131 : Int)]), 0) :=
  ⟨by decide, by decide,
    (load_or_fetch_data_idempotent postScenario ⟨[]⟩ 1 2023
      (List.replicate 10 [(20230131 : Int)]) (by decide) (by decide)).1,
    (load_or_fetch_data_idempotent postScenario ⟨[]⟩ 1 2023
      (List.replicate 10 [(20230131 : Int)]) (by decide) (by decide)).2.2⟩

/-- C7: for the plan of months 1, 2, 3 of 2023 where months 3 and 2 resolve
with zero rows and month 1 with ten rows, the loop (traversed most recent
first) ends with exactly the ten-row table collected, the counter reset to
0 and the labels cleared, the abortion flag never set (so the counter never
reached 5 and the plan was exhausted normally), and the concatenated result
has the ten rows of the table for month 1 of 2023. -/
theorem scenario_ten_rows :
    aggLoop postScenario ([(1, 2023), (2, 2023), (3, 2023)] : List (Nat × Int)).reverse
        ⟨[]⟩ initAggState =
      Except.ok (⟨[List.replicate 10 [(20230131 : Int)]], 0, [], false⟩,
        ⟨[("bd_bank_historical_interest_rate_data/1_2023.parquet",
            List.replicate 10 [(20230131 : Int)]),
          ("bd_bank_historical_interest_rate_data/2_2023.parquet", []),
          ("bd_bank_historical_interest_rate_data/3_2023.parquet", [])]⟩) ∧
    get_data_for_months postScenario [(1, 2023), (2, 2023), (3, 2023)] ⟨[]⟩ =
      Except.ok (List.replicate 10 [(20230131 : Int)],
        ⟨[("bd_bank_historical_interest_rate_data/1_2023.parquet",
            List.replicate 10 [(20230131 : Int)]),
          ("bd_bank_historical_interest_rate_data/2_2023.parquet", []),
          ("bd_bank_historical_interest_rate_data/3_2023.parquet", [])]⟩) ∧
    (List.replicate 10 [(20230131 : Int)]).length = 10 := by
  refine ⟨by decide, by decide, by decide⟩

/-- C4: whenever the aggregation loop terminates (plan exhausted or early
stop, that is, it returns a final state rather than raising) with no table
collected, get_data_for_months fails with the NoDataCollectedError raised by
the concatenation of an empty list, and main never reaches the write of the
combined output file. -/
theorem empty_collection_fails (cm : Nat) (cy : Int) (now : UTCTime)
    (post : Nat → Int → HttpResponse) (fs : FileSystem) (ex : Bool)
    (s e : Int) (plan : List (Nat × Int)) (st : AggState) (fs1 : FileSystem)
    (f : String) (tbl : Table)
    (hplan : create_fetch_list cm cy s e = Except.ok plan)
    (hrun : aggLoop post plan.reverse fs initAggState = Except.ok (st, fs1))
    (hempty : st.all_tables = []) :
    get_data_for_months post plan fs = Except.error PyError.noDataCollected ∧
    Script.main cm cy now post fs ex s e ≠ MainOutcome.wrote f tbl := by
  have hg : get_data_for_months post plan fs = Except.error PyError.noDataCollected := by
    unfold get_data_for_months
    rw [hrun]
    simp [hempty]
  refine ⟨hg, ?_⟩
  unfold Script.main
  rw [hplan]
  by_cases hnil : plan.isEmpty
  · simp [hnil]
  · simp only [hnil, if_false, Bool.false_eq_true]
    rw [hg]
    simp

/-- Witness for C4: with the current date at December 2023, the range 2023
to 2023 plans twelve months, every period resolves with zero rows, the loop
stops after five consecutive absences with nothing collected, and the run
fails without writing the combined output. -/
theorem empty_collection_fails_witness :
    get_data_for_months postAllEmpty
        [(1, 2023), (2, 2023), (3, 2023), (4, 2023), (5, 2023), (6, 2023),
         (7, 2023), (8, 2023), (9, 2023), (10, 2023), (11, 2023), (12, 2023)]
        ⟨[]⟩ = Except.error PyError.noDataCollected ∧
    Script.main 12 2023 ⟨2023, 12, 31, 0, 0, 0⟩ postAllEmpty ⟨[]⟩ false 2023 2023 ≠
      MainOutcome.wrote file_name_combined [] :=
  empty_collection_fails 12 2023 ⟨2023, 12, 31, 0, 0, 0⟩ postAllEmpty ⟨[]⟩ false
    2023 2023
    [(1, 2023), (2, 2023), (3, 2023), (4, 2023), (5, 2023), (6, 2023),
     (7, 2023), (8, 2023), (9, 2023), (10, 2023), (11, 2023), (12, 2023)]
    ⟨[], 5,
      ["December, 2023", "November, 2023", "October, 2023", "September, 2023",
       "August, 2023"], true⟩
    ⟨[("bd_bank_historical_interest_rate_data/8_2023.parquet", []),
      ("bd_bank_historical_interest_rate_data/9_2023.parquet", []),
      ("bd_bank_historical_interest_rate_data/10_2023.parquet", []),
      ("bd_bank_historical_interest_rate_data/11_2023.parquet", []),
      ("bd_bank_historical_interest_rate_data/12_2023.parquet", [])]⟩
    file_name_combined []
    (by decide) (by decide) (by decide)

/-- C8: when the whole requested range lies strictly after the current
year, create_fetch_list returns an empty plan instead of raising (every
generated pair is removed by the final filter), and main treats the empty
plan as a no-op, returning without fetching or writing anything. -/
theorem empty_plan_is_noop (cm : Nat) (cy : Int) (now : UTCTime)
    (post : Nat → Int → HttpResponse) (fs : FileSystem) (ex : Bool)
    (s e : Int) (h1 : cy < s) (h2 : s ≤ e) :
    create_fetch_list cm cy s e = Except.ok [] ∧
    Script.main cm cy now post fs ex s e = MainOutcome.emptyPlan := by
  have hns : ¬ e < s := by omega
  have hplan : create_fetch_list cm cy s e = Except.ok [] := by
    unfold create_fetch_list
    rw [if_neg hns]
    simp only []
    congr 1
    rw [List.filter_eq_nil_iff]
    intro p hp
    rw [List.mem_flatMap] at hp
    obtain ⟨year, hyear, hp⟩ := hp
    rw [List.mem_map] at hyear
    obtain ⟨i, hi, rfl⟩ := hyear
    rw [List.mem_map] at hp
    obtain ⟨j, hj, rfl⟩ := hp
    have hnn : 0 ≤ i := by
      simp only [List.mem_map, List.mem_range, bind, pure, List.mem_flatMap] at hi
      obtain ⟨a, -, hmem⟩ := hi
      have hia : i = (a : Int) := by simpa [List.singleton] using hmem
      subst hia
      exact Int.natCast_nonneg a
    simp only [Bool.or_eq_true, Bool.and_eq_true, decide_eq_true_eq, not_or, not_and]
    omega
  refine ⟨hplan, ?_⟩
  unfold Script.main
  rw [hplan]
  simp

/-- Witness for C8: with the current date at June 2024, the range 2025 to
2025 yields the empty plan and main is a no-op. -/
theorem empty_plan_is_noop_witness :
    create_fetch_list 6 2024 2025 2025 = Except.ok [] ∧
    Script.main 6 2024 ⟨2024, 6, 1, 0, 0, 0⟩ post404 ⟨[]⟩ false 2025 2025 =
      MainOutcome.emptyPlan :=
  empty_plan_is_noop 6 2024 ⟨2024, 6, 1, 0, 0, 0⟩ post404 ⟨[]⟩ false 2025 2025
    (by decide) (by decide)

/-- Witness for C9 at a concrete UTC instant. -/
theorem combined_file_name_collision_witness :
    combined_file_name true ⟨2026, 10, 12, 0, 0, 0⟩ ≠ file_name_combined :=
  (combined_file_name_collision ⟨2026, 10, 12, 0, 0, 0⟩).2
